import Mathlib

/-
  Shallow embedding of the OAuth2 authentication manager of
  google-workspace-mcp (src/auth/AuthManager.ts).

  JavaScript truthiness on strings (null / "" are falsy) is modelled by
  `isTruthy` on `Option String`; machine time is an `Int` of epoch
  milliseconds; the persistent credential store and the in-memory client
  are the two fields of `MgrState`; observable side effects (refresh
  endpoint calls, store writes, listener start, ...) are recorded in a
  `List Effect` in program order.
-/

namespace GWMCP

/-- TOKEN_EXPIRY_BUFFER_MS = 5 * 60 * 1000 (AuthManager.ts line 22). -/
def TOKEN_EXPIRY_BUFFER_MS : Int := 5 * 60 * 1000

/-- The fields of `Auth.Credentials` used by AuthManager.  `none` stands
for a JS `null`/`undefined` field. -/
structure Credentials where
  access_token : Option String := none
  refresh_token : Option String := none
  scope : Option String := none
  token_type : Option String := none
  expiry_date : Option Int := none
deriving Repr, DecidableEq

/-- JS truthiness of a nullable string: `null`/`undefined` and `""` are falsy. -/
def isTruthy : Option String → Bool
  | none => false
  | some s => !s.isEmpty

/-- `isTokenExpiringSoon` (lines 43-48):
`!!(credentials.expiry_date && credentials.expiry_date < Date.now() + TOKEN_EXPIRY_BUFFER_MS)`.
A missing expiry, or the (falsy) expiry 0, is never "expiring soon". -/
def isTokenExpiringSoon (now : Int) (cred : Credentials) : Bool :=
  match cred.expiry_date with
  | some e => (e != 0) && decide (e < now + TOKEN_EXPIRY_BUFFER_MS)
  | none => false

/-- Observable side effects of the manager, in program order. -/
inductive Effect where
  | refreshCall
  | storeSave (cred : Credentials)
  | storeClear
  | interactiveStart
  | urlFileWrite
  | browserOpen
  | urlFileUnlink
deriving Repr, DecidableEq

/-- Behaviour of the remote refresh endpoint for one POST /refreshToken. -/
inductive RefreshOutcome where
  | netError (msg : String)
  | httpError (status : Nat) (body : String)
  | ok (newTokens : Credentials)
deriving Repr

/-- Manager state: the in-memory client's credentials (`this.client`,
`none` when `this.client === null`) and the persisted credential record. -/
structure MgrState where
  client : Option Credentials
  stored : Option Credentials
deriving Repr, DecidableEq

/-- Result of the endpoint half of `refreshToken` (lines 213-241): fail
fast without a fetch when the refresh token is falsy; otherwise fetch;
on a 2xx response merge `{...newTokens, refresh_token: current}` —
the prior refresh token always wins — and save the merged credential. -/
instance {α β : Type} [DecidableEq α] [DecidableEq β] : DecidableEq (Except α β) := fun a b =>
  match a, b with
  | .ok x, .ok y =>
      if h : x = y then .isTrue (by rw [h]) else .isFalse (fun hh => h (Except.ok.inj hh))
  | .error x, .error y =>
      if h : x = y then .isTrue (by rw [h]) else .isFalse (fun hh => h (Except.error.inj hh))
  | .ok _, .error _ => .isFalse (fun hh => Except.noConfusion hh)
  | .error _, .ok _ => .isFalse (fun hh => Except.noConfusion hh)

structure EndpointResult where
  result : Except String Credentials
  effects : List Effect
deriving DecidableEq

def refreshViaEndpoint (cred : Credentials) (out : RefreshOutcome) : EndpointResult :=
  if isTruthy cred.refresh_token then
    match out with
    | .netError m => { result := .error m, effects := [.refreshCall] }
    | .httpError status body =>
        { result := .error ("Token refresh failed: " ++ toString status ++ " " ++ body),
          effects := [.refreshCall] }
    | .ok newTokens =>
        let merged : Credentials := { newTokens with refresh_token := cred.refresh_token }
        { result := .ok merged, effects := [.refreshCall, .storeSave merged] }
  else { result := .error "No refresh token available", effects := [] }

/-- One inbound HTTP request to the callback listener, with the query
string already split into `qs.get` results (`none` = parameter absent).
`urlParseThrows` models `new url.URL(req.url, ...)` throwing. -/
structure CallbackRequest where
  url : Option String := none
  urlParseThrows : Bool := false
  state : Option String := none
  error : Option String := none
  error_description : Option String := none
  access_token : Option String := none
  refresh_token : Option String := none
  scope : Option String := none
  token_type : Option String := none
  expiry_date : Option String := none
deriving Repr, DecidableEq

/-- How the login-complete promise settles. -/
inductive Settle where
  | resolved (tokens : Credentials)
  | rejected (msg : String)
deriving Repr, DecidableEq

/-- What one run of the request handler did: how it settled the promise,
which credentials (if any) it adopted via `client.setCredentials`, the
body sent to the browser, and whether `server.close()` ran. -/
structure HandlerOut where
  settle : Settle
  adopted : Option Credentials
  responseBody : Option String
  serverClosed : Bool
deriving Repr, DecidableEq

/-- JS `x || null` / `x || undefined` on a nullable string. -/
def qsOr (v : Option String) : Option String :=
  if isTruthy v then v else none

/-- `s.startsWith p` over the character list (kernel-computable). -/
def strStartsWith (s p : String) : Bool :=
  p.data.isPrefixOf s.data

/-- Leading decimal digit run as a number; `none` when there is none. -/
def digitsToNat (cs : List Char) : Option Nat :=
  let ds := cs.takeWhile Char.isDigit
  if ds.isEmpty then none
  else some (ds.foldl (fun acc c => acc * 10 + (c.toNat - '0'.toNat)) 0)

/-- JS `parseInt(s, 10)`: skip whitespace, optional sign, leading digit
run; `none` stands for NaN. -/
def jsParseInt (s : String) : Option Int :=
  let cs := s.data.dropWhile (fun c => c == ' ' || c == '\t' || c == '\n' || c == '\r')
  match cs with
  | '-' :: rest => (digitsToNat rest).map (fun n => -(Int.ofNat n))
  | '+' :: rest => (digitsToNat rest).map Int.ofNat
  | rest => (digitsToNat rest).map Int.ofNat

/-- The CSRF check of the handler (lines 309-316): accept `state` as
the raw csrf token, or—when it is a truthy string—base64-decode and
JSON-parse it and compare its `csrf` field.  `decodeCsrf` abstracts
`JSON.parse(Buffer.from(s, 'base64').toString()).csrf`, with `none`
for a parse failure or a missing/non-string field. -/
def csrfValidCheck (decodeCsrf : String → Option String) (csrfToken : String)
    (returnedState : Option String) : Bool :=
  let v0 := returnedState == some csrfToken
  if !v0 && isTruthy returnedState then
    match returnedState with
    | some s =>
        match decodeCsrf s with
        | some c => c == csrfToken
        | none => false
    | none => false
  else v0

/-- The callback request handler (lines 298-352).  Every branch settles
the promise exactly once and the `finally` always closes the server. -/
def handleCallback (decodeCsrf : String → Option String) (csrfToken : String)
    (req : CallbackRequest) : HandlerOut :=
  if !(match req.url with | some u => strStartsWith u "/oauth2callback" | none => false) then
    { settle := .rejected ("OAuth callback not received. Unexpected request: "
        ++ (match req.url with | some u => u | none => "null")),
      adopted := none, responseBody := some "", serverClosed := true }
  else if req.urlParseThrows then
    { settle := .rejected "Invalid URL", adopted := none,
      responseBody := none, serverClosed := true }
  else if !(csrfValidCheck decodeCsrf csrfToken req.state) then
    { settle := .rejected "OAuth state mismatch. Possible CSRF attack.",
      adopted := none, responseBody := some "State mismatch. Possible CSRF attack.",
      serverClosed := true }
  else if isTruthy req.error then
    { settle := .rejected ("Google OAuth error: " ++ (match req.error with
        | some e => e | none => "null") ++ ". "
        ++ (match qsOr req.error_description with | some d => d | none => "")),
      adopted := none, responseBody := some "", serverClosed := true }
  else if isTruthy req.access_token && isTruthy req.expiry_date then
    let tokens : Credentials :=
      { access_token := req.access_token,
        refresh_token := qsOr req.refresh_token,
        scope := qsOr req.scope,
        token_type := qsOr req.token_type,
        expiry_date := jsParseInt (match req.expiry_date with | some s => s | none => "") }
    { settle := .resolved tokens, adopted := some tokens,
      responseBody := some "Authentication successful! Please return to the console.",
      serverClosed := true }
  else
    { settle := .rejected "Authentication failed: Did not receive tokens from callback.",
      adopted := none, responseBody := none, serverClosed := true }

/-- The listener over its lifetime: the settles recorded so far and
whether the server has shut down.  A request arriving after the close is
not processed. -/
structure ListenerState where
  settles : List Settle
  closed : Bool
deriving Repr, DecidableEq

def listenerStep (decodeCsrf : String → Option String) (csrfToken : String)
    (ls : ListenerState) (req : CallbackRequest) : ListenerState :=
  if ls.closed then ls
  else
    let out := handleCallback decodeCsrf csrfToken req
    { settles := ls.settles ++ [out.settle], closed := out.serverClosed }

def runListener (decodeCsrf : String → Option String) (csrfToken : String)
    (reqs : List CallbackRequest) : ListenerState :=
  reqs.foldl (listenerStep decodeCsrf csrfToken) { settles := [], closed := false }

/-- Which side of `Promise.race([loginCompletePromise, timeoutPromise])`
settles first: the 5-minute timer, or the listener handling a request. -/
inductive RaceOutcome where
  | timeout
  | callback (req : CallbackRequest)
deriving Repr, DecidableEq

/-- The environment of one manager call: the clock, the refresh
endpoint's behaviour, the flow's random csrf token, the generated
authorization URL, the base64/JSON decoder and the race outcome. -/
structure Env where
  now : Int
  refreshOutcome : RefreshOutcome
  csrfToken : String
  authUrl : String
  decodeCsrf : String → Option String
  race : RaceOutcome

/-- The timeout rejection message (lines 183-187). -/
def timeoutMessage (authUrl : String) : String :=
  "Authentication timed out after 5 minutes. Open this URL in your browser: " ++ authUrl

/-- Result of `getAuthenticatedClient`: the returned credentials or the
propagated error, the manager state afterwards, and the effect trace. -/
structure AuthResult where
  result : Except String Credentials
  state : MgrState
  effects : List Effect
deriving DecidableEq

/-- The interactive flow (lines 150-195): start the listener and build
the auth URL (`authWithWeb`), write the URL file, try the browser, then
race the login promise against the 5-minute timer.  On resolve the
handler has already adopted the tokens into the client; the manager then
persists them and caches the client.  On timeout or rejection the error
propagates and the state is left as it was. -/
def webLogin (st : MgrState) (env : Env) : AuthResult :=
  match env.race with
  | .timeout =>
      { result := .error (timeoutMessage env.authUrl), state := st,
        effects := [.interactiveStart, .urlFileWrite, .browserOpen] }
  | .callback req =>
      match (handleCallback env.decodeCsrf env.csrfToken req).settle with
      | .resolved tokens =>
          { result := .ok tokens, state := { client := some tokens, stored := some tokens },
            effects := [.interactiveStart, .urlFileWrite, .browserOpen, .storeSave tokens] }
      | .rejected msg =>
          { result := .error msg, state := st,
            effects := [.interactiveStart, .urlFileWrite, .browserOpen] }

/-- JS `s.split(' ')` over the character list: split at every single
space, keeping empty pieces; `"".split(' ')` is `[""]`. -/
def jsSplitSpace (cs : List Char) : List (List Char) :=
  match cs with
  | [] => [[]]
  | c :: rest =>
    let r := jsSplitSpace rest
    if c == ' ' then [] :: r
    else
      match r with
      | [] => [[c]]
      | h :: t => (c :: h) :: t

/-- `new Set(credentials.scope?.split(' ') ?? [])` (line 56). -/
def savedScopes (cred : Credentials) : List String :=
  match cred.scope with
  | some s => (jsSplitSpace s.data).map (fun cs => String.mk cs)
  | none => []

/-- `this.scopes.filter((scope) => !savedScopes.has(scope))` (lines 60-62). -/
def missingScopes (scopes : List String) (cred : Credentials) : List String :=
  scopes.filter (fun sc => !((savedScopes cred).contains sc))

/-- Lines 107-196: build a fresh client, try `loadCachedCredentials`
(scope check, clear on mismatch, adopt on match), proactively refresh an
expiring loaded credential (clearing client and store on failure), and
otherwise fall through to the interactive flow. -/
def loadCachedOrLogin (scopes : List String) (st : MgrState) (env : Env) : AuthResult :=
  match st.stored with
  | none => webLogin st env
  | some cred =>
    if (missingScopes scopes cred).isEmpty then
      if isTokenExpiringSoon env.now cred then
        let er := refreshViaEndpoint cred env.refreshOutcome
        match er.result with
        | .ok merged =>
            { result := .ok merged, state := { client := some merged, stored := some merged },
              effects := er.effects }
        | .error _ =>
            let wr := webLogin { client := none, stored := none } env
            { result := wr.result, state := wr.state,
              effects := er.effects ++ [.storeClear] ++ wr.effects }
      else
        { result := .ok cred, state := { st with client := some cred }, effects := [] }
    else
      let wr := webLogin { st with stored := none } env
      { result := wr.result, state := wr.state, effects := .storeClear :: wr.effects }

/-- `getAuthenticatedClient` (lines 78-196).  When an in-memory client
with a truthy refresh token exists: return it directly unless it is
expiring soon, in which case refresh proactively — on success return the
merged credential, on failure null the client, clear the store and fall
through.  Otherwise fall through to `loadCachedOrLogin`. -/
def getAuthenticatedClient (scopes : List String) (st : MgrState) (env : Env) : AuthResult :=
  match st.client with
  | some c =>
    if isTruthy c.refresh_token then
      if isTokenExpiringSoon env.now c then
        let er := refreshViaEndpoint c env.refreshOutcome
        match er.result with
        | .ok merged =>
            { result := .ok merged, state := { client := some merged, stored := some merged },
              effects := er.effects }
        | .error _ =>
            let lr := loadCachedOrLogin scopes { client := none, stored := none } env
            { result := lr.result, state := lr.state,
              effects := er.effects ++ [.storeClear] ++ lr.effects }
      else { result := .ok c, state := st, effects := [] }
    else loadCachedOrLogin scopes st env
  | none => loadCachedOrLogin scopes st env

/-- Post-state and effects of an operation returning no value. -/
structure StepResult where
  state : MgrState
  effects : List Effect
deriving Repr, DecidableEq

/-- `clearAuth` (lines 198-205): null the client, clear the store,
best-effort unlink of the auth-URL file; never throws. -/
def clearAuth (_st : MgrState) : StepResult :=
  { state := { client := none, stored := none }, effects := [.storeClear, .urlFileUnlink] }

/-- Result of the public `refreshToken`. -/
structure RefreshResult where
  result : Except String Unit
  state : MgrState
  effects : List Effect
deriving DecidableEq

/-- The public `refreshToken` (lines 207-246).  With no in-memory client
it first runs the whole `getAuthenticatedClient` algorithm; then it
refreshes the client's credentials via the endpoint, updating the client
and the store only on success. -/
def refreshToken (scopes : List String) (st : MgrState) (env : Env) : RefreshResult :=
  match st.client with
  | some c =>
      let er := refreshViaEndpoint c env.refreshOutcome
      match er.result with
      | .ok merged =>
          { result := .ok (), state := { client := some merged, stored := some merged },
            effects := er.effects }
      | .error e => { result := .error e, state := st, effects := er.effects }
  | none =>
      let ar := getAuthenticatedClient scopes st env
      match ar.result with
      | .error e => { result := .error e, state := ar.state, effects := ar.effects }
      | .ok c =>
          let er := refreshViaEndpoint c env.refreshOutcome
          match er.result with
          | .ok merged =>
              { result := .ok (), state := { client := some merged, stored := some merged },
                effects := ar.effects ++ er.effects }
          | .error e =>
              { result := .error e, state := ar.state, effects := ar.effects ++ er.effects }

/-- Is this effect a write to the persistent credential store? -/
def isStoreWrite : Effect → Bool
  | .storeSave _ => true
  | .storeClear => true
  | _ => false

/-- The suffix of an effect trace strictly after the first
`interactiveStart`, i.e. everything that happened after the interactive
flow began waiting. -/
def effectsAfterInteractive : List Effect → List Effect
  | [] => []
  | .interactiveStart :: rest => rest
  | _ :: rest => effectsAfterInteractive rest

/- Concrete fixtures used by the witness theorems. -/

def wCred : Credentials :=
  { access_token := some "AT1", refresh_token := some "RT1",
    scope := some "read", expiry_date := some 10000000 }

def wCredNoRT : Credentials :=
  { access_token := some "AT1", refresh_token := none, expiry_date := some 10 }

def wCredNoExp : Credentials :=
  { access_token := some "AT1", refresh_token := some "RT1",
    scope := some "read", expiry_date := none }

def wEnvTimeout : Env :=
  { now := 0, refreshOutcome := .netError "fetch failed", csrfToken := "tok",
    authUrl := "https://accounts.example/auth", decodeCsrf := fun _ => none,
    race := .timeout }

def wReqBadState : CallbackRequest :=
  { url := some "/oauth2callback?state=bad", state := some "bad" }

def c1CredPrior : Credentials :=
  { access_token := some "AT1", refresh_token := some "oldRT", expiry_date := some 1000 }

def c1Endpoint : Credentials :=
  { access_token := some "AT2", refresh_token := some "newRT", expiry_date := some 2000 }

def c1Merged : Credentials :=
  { access_token := some "AT2", refresh_token := some "oldRT", expiry_date := some 2000 }

def wEnvC1 : Env := { wEnvTimeout with refreshOutcome := .ok c1Endpoint }

/- Helper lemmas (shared; not claim theorems). -/

theorem isPrefixOf_append_self {α : Type} [DecidableEq α] (l t : List α) :
    l.isPrefixOf (l ++ t) = true := by
  induction l with
  | nil => simp [List.isPrefixOf]
  | cons a as ih => simp [List.isPrefixOf, ih]

theorem isPrefixOf_self {α : Type} [DecidableEq α] (l : List α) :
    l.isPrefixOf l = true := by
  have := isPrefixOf_append_self l ([] : List α)
  rwa [List.append_nil] at this

/-- C1 — corrected.  Counterexample to the claim as stated: with prior
refresh token "oldRT" and a successful endpoint response that itself
carries the (truthy) refresh token "newRT", the merged credential
produced by `refreshToken`'s merge carries "oldRT", not the endpoint's
"newRT". -/
theorem c1_counterexample :
    isTruthy c1Endpoint.refresh_token = true ∧
    (refreshViaEndpoint c1CredPrior (.ok c1Endpoint)).result = .ok c1Merged ∧
    c1Merged.refresh_token ≠ c1Endpoint.refresh_token := by
  decide

/-- C1 — amended: when `refreshToken()` succeeds against the endpoint
while an in-memory credential with a truthy refresh token exists, the
resulting credential carries the endpoint's access token and expiry,
but its refresh token is always the prior credential's, even when the
endpoint returned one; the merged credential is persisted and becomes
the in-memory credential. -/
theorem c1_refresh_merge (scopes : List String) (st : MgrState) (env : Env)
    (c nt : Credentials) (hc : st.client = some c)
    (hrt : isTruthy c.refresh_token = true) (hok : env.refreshOutcome = .ok nt) :
    refreshToken scopes st env =
      { result := .ok (),
        state := { client := some { nt with refresh_token := c.refresh_token },
                   stored := some { nt with refresh_token := c.refresh_token } },
        effects := [.refreshCall, .storeSave { nt with refresh_token := c.refresh_token }] } ∧
    ({ nt with refresh_token := c.refresh_token } : Credentials).access_token = nt.access_token ∧
    ({ nt with refresh_token := c.refresh_token } : Credentials).expiry_date = nt.expiry_date ∧
    ({ nt with refresh_token := c.refresh_token } : Credentials).refresh_token = c.refresh_token := by
  refine ⟨?_, rfl, rfl, rfl⟩
  simp [refreshToken, refreshViaEndpoint, hc, hrt, hok]

/-- Witness for `c1_refresh_merge` at concrete inputs. -/
theorem c1_refresh_merge_witness :
    refreshToken ["read"] ⟨some c1CredPrior, some c1CredPrior⟩ wEnvC1 =
      { result := .ok (), state := ⟨some c1Merged, some c1Merged⟩,
        effects := [.refreshCall, .storeSave c1Merged] } ∧
    c1Merged.access_token = c1Endpoint.access_token ∧
    c1Merged.expiry_date = c1Endpoint.expiry_date ∧
    c1Merged.refresh_token = c1CredPrior.refresh_token :=
  c1_refresh_merge ["read"] ⟨some c1CredPrior, some c1CredPrior⟩ wEnvC1
    c1CredPrior c1Endpoint rfl (by decide) rfl

/-- C3: a cached in-memory credential with a (truthy) refresh token
whose expiry is more than 5 minutes in the future is returned as-is:
no refresh call, no state change, no store write. -/
theorem c3_fresh_token_no_refresh (scopes : List String) (st : MgrState) (env : Env)
    (c : Credentials) (e : Int) (hc : st.client = some c)
    (hrt : isTruthy c.refresh_token = true) (hexp : c.expiry_date = some e)
    (hfresh : env.now + TOKEN_EXPIRY_BUFFER_MS < e) :
    getAuthenticatedClient scopes st env = { result := .ok c, state := st, effects := [] } := by
  have hexpSoon : isTokenExpiringSoon env.now c = false := by
    unfold isTokenExpiringSoon
    rw [hexp]
    have hlt : ¬ (e < env.now + TOKEN_EXPIRY_BUFFER_MS) := by omega
    simp [hlt]
  unfold getAuthenticatedClient
  rw [hc]
  simp [hrt, hexpSoon]

/-- Witness for `c3_fresh_token_no_refresh`. -/
theorem c3_witness :
    getAuthenticatedClient ["read"] ⟨some wCred, some wCred⟩ wEnvTimeout =
      { result := .ok wCred, state := ⟨some wCred, some wCred⟩, effects := [] } :=
  c3_fresh_token_no_refresh ["read"] ⟨some wCred, some wCred⟩ wEnvTimeout
    wCred 10000000 rfl (by decide) rfl (by decide)

/-- C9: a cached in-memory credential with a (truthy) refresh token and
no expiry timestamp is treated as never expiring: it is returned as-is
with no refresh call, however old it may be. -/
theorem c9_no_expiry_no_refresh (scopes : List String) (st : MgrState) (env : Env)
    (c : Credentials) (hc : st.client = some c)
    (hrt : isTruthy c.refresh_token = true) (hexp : c.expiry_date = none) :
    getAuthenticatedClient scopes st env = { result := .ok c, state := st, effects := [] } := by
  have hexpSoon : isTokenExpiringSoon env.now c = false := by
    unfold isTokenExpiringSoon
    rw [hexp]
  unfold getAuthenticatedClient
  rw [hc]
  simp [hrt, hexpSoon]

/-- Witness for `c9_no_expiry_no_refresh`. -/
theorem c9_witness :
    getAuthenticatedClient ["read"] ⟨some wCredNoExp, none⟩ wEnvTimeout =
      { result := .ok wCredNoExp, state := ⟨some wCredNoExp, none⟩, effects := [] } :=
  c9_no_expiry_no_refresh ["read"] ⟨some wCredNoExp, none⟩ wEnvTimeout
    wCredNoExp rfl (by decide) rfl

/-- C6: `refreshToken()` with an in-memory credential fails fast (before
any endpoint call: empty effect trace) when the refresh token is absent,
and on every failure leaves both the in-memory credential and the
persisted record exactly as they were. -/
theorem c6_refresh_failure_preserves_state (scopes : List String) (st : MgrState)
    (env : Env) (c : Credentials) (hc : st.client = some c) :
    (isTruthy c.refresh_token = false →
      refreshToken scopes st env =
        { result := .error "No refresh token available", state := st, effects := [] }) ∧
    (∀ e, (refreshToken scopes st env).result = .error e →
      (refreshToken scopes st env).state = st) := by
  constructor
  · intro hf
    simp [refreshToken, refreshViaEndpoint, hc, hf]
  · intro e he
    by_cases hrt : isTruthy c.refresh_token = true
    · simp only [refreshToken, refreshViaEndpoint, hc, hrt] at he ⊢
      cases hout : env.refreshOutcome <;> simp [hout] at he ⊢
    · have hrt' : isTruthy c.refresh_token = false := by
        cases h : isTruthy c.refresh_token
        · rfl
        · exact absurd h hrt
      simp [refreshToken, refreshViaEndpoint, hc, hrt']

/-- Witness for `c6_refresh_failure_preserves_state` (fail-fast branch). -/
theorem c6_witness :
    refreshToken ["read"] ⟨some wCredNoRT, some wCredNoRT⟩ wEnvTimeout =
      { result := .error "No refresh token available",
        state := ⟨some wCredNoRT, some wCredNoRT⟩, effects := [] } :=
  (c6_refresh_failure_preserves_state ["read"] ⟨some wCredNoRT, some wCredNoRT⟩
    wEnvTimeout wCredNoRT rfl).1 (by decide)

/-- C7: `clearAuth` is idempotent — a second call leaves the state the
first produced — and after it no in-memory or persisted credential
remains; it never throws (it is a total function). -/
theorem c7_clearAuth_idempotent (st : MgrState) :
    clearAuth (clearAuth st).state = clearAuth st ∧
    (clearAuth st).state.client = none ∧ (clearAuth st).state.stored = none :=
  ⟨rfl, rfl, rfl⟩

theorem csrfValidCheck_false (decodeCsrf : String → Option String) (tok : String)
    (os : Option String) (hraw : os ≠ some tok)
    (hdec : ∀ s, os = some s → decodeCsrf s ≠ some tok) :
    csrfValidCheck decodeCsrf tok os = false := by
  have hv0 : (os == some tok) = false := by
    cases os with
    | none => rfl
    | some s =>
      rw [beq_eq_false_iff_ne]
      exact hraw
  unfold csrfValidCheck
  rw [hv0]
  cases os with
  | none => rfl
  | some s =>
    by_cases hts : isTruthy (some s) = true
    · simp only [hts, Bool.not_false, Bool.and_true, if_true]
      cases hd : decodeCsrf s with
      | none => rfl
      | some c =>
        have hne := hdec s rfl
        rw [hd] at hne
        rw [beq_eq_false_iff_ne]
        intro hct
        exact hne (by rw [hct])
    · have hts' : isTruthy (some s) = false := by
        cases h : isTruthy (some s)
        · rfl
        · exact absurd h hts
      simp [hts']

/-- C2: a callback request to the callback path whose `state` parameter
neither equals the flow's csrf token nor decodes (via the base64/JSON
decoder) to that token — including a missing or undecodable state — is
rejected with the CSRF error, and no tokens from that request are ever
adopted into the client's credentials. -/
theorem c2_csrf_reject (decodeCsrf : String → Option String) (tok : String)
    (req : CallbackRequest) (u : String)
    (hu : req.url = some u) (hpath : strStartsWith u "/oauth2callback" = true)
    (hthrow : req.urlParseThrows = false)
    (hraw : req.state ≠ some tok)
    (hdec : ∀ s, req.state = some s → decodeCsrf s ≠ some tok) :
    (handleCallback decodeCsrf tok req).settle =
      .rejected "OAuth state mismatch. Possible CSRF attack." ∧
    (handleCallback decodeCsrf tok req).adopted = none := by
  have hcsrf : csrfValidCheck decodeCsrf tok req.state = false :=
    csrfValidCheck_false decodeCsrf tok req.state hraw hdec
  unfold handleCallback
  rw [hu]
  simp [hpath, hthrow, hcsrf]

/-- Witness for `c2_csrf_reject`. -/
theorem c2_witness :
    (handleCallback (fun _ => none) "tok" wReqBadState).settle =
      .rejected "OAuth state mismatch. Possible CSRF attack." ∧
    (handleCallback (fun _ => none) "tok" wReqBadState).adopted = none :=
  c2_csrf_reject (fun _ => none) "tok" wReqBadState "/oauth2callback?state=bad"
    rfl (by decide) rfl (by decide) (by intro s hs; simp)

theorem handleCallback_serverClosed (decodeCsrf : String → Option String)
    (tok : String) (req : CallbackRequest) :
    (handleCallback decodeCsrf tok req).serverClosed = true := by
  unfold handleCallback
  repeat' split
  all_goals rfl

theorem foldl_listenerStep_closed (decodeCsrf : String → Option String) (tok : String)
    (rs : List CallbackRequest) (ls : ListenerState) (h : ls.closed = true) :
    rs.foldl (listenerStep decodeCsrf tok) ls = ls := by
  induction rs with
  | nil => rfl
  | cons r rest ih =>
    have hstep : listenerStep decodeCsrf tok ls r = ls := by
      unfold listenerStep
      rw [h]
      rfl
    rw [List.foldl_cons, hstep, ih]

/-- C8: over any sequence of inbound requests, the listener settles the
completion promise at most once; as soon as one request has been
handled — whatever its outcome — the server is closed and every later
request goes unprocessed, so exactly one settle happens when at least
one request arrives. -/
theorem c8_single_settle (decodeCsrf : String → Option String) (tok : String)
    (reqs : List CallbackRequest) :
    (runListener decodeCsrf tok reqs).settles.length ≤ 1 ∧
    (reqs ≠ [] → (runListener decodeCsrf tok reqs).closed = true ∧
      (runListener decodeCsrf tok reqs).settles.length = 1) := by
  cases reqs with
  | nil => exact ⟨by simp [runListener], fun h => absurd rfl h⟩
  | cons r rs =>
    have h1 : listenerStep decodeCsrf tok { settles := [], closed := false } r =
        { settles := [(handleCallback decodeCsrf tok r).settle], closed := true } := by
      unfold listenerStep
      simp [handleCallback_serverClosed]
    have h2 : runListener decodeCsrf tok (r :: rs) =
        { settles := [(handleCallback decodeCsrf tok r).settle], closed := true } := by
      unfold runListener
      rw [List.foldl_cons, h1, foldl_listenerStep_closed decodeCsrf tok rs _ rfl]
    rw [h2]
    exact ⟨by simp, fun _ => ⟨rfl, rfl⟩⟩

/-- Witness for `c8_single_settle`. -/
theorem c8_witness :
    (runListener (fun _ => none) "tok" [wReqBadState]).settles.length ≤ 1 ∧
    ((runListener (fun _ => none) "tok" [wReqBadState]).closed = true ∧
      (runListener (fun _ => none) "tok" [wReqBadState]).settles.length = 1) :=
  ⟨(c8_single_settle (fun _ => none) "tok" [wReqBadState]).1,
   (c8_single_settle (fun _ => none) "tok" [wReqBadState]).2 (by simp)⟩

/-- C10: calling `refreshToken()` with no in-memory credential first
runs the full `getAuthenticatedClient` algorithm — its entire effect
trace is a prefix of `refreshToken`'s, and its error (e.g. the
interactive flow's 5-minute timeout) propagates unchanged with no
further endpoint call; only after it succeeds is the refresh endpoint
contacted, on the credential it produced.  There is no fast failure in
this case. -/
theorem c10_refresh_runs_full_auth (scopes : List String) (st : MgrState) (env : Env)
    (hc : st.client = none) :
    ((getAuthenticatedClient scopes st env).effects.isPrefixOf
      (refreshToken scopes st env).effects = true) ∧
    (∀ e, (getAuthenticatedClient scopes st env).result = .error e →
      refreshToken scopes st env =
        { result := .error e, state := (getAuthenticatedClient scopes st env).state,
          effects := (getAuthenticatedClient scopes st env).effects }) ∧
    (∀ c, (getAuthenticatedClient scopes st env).result = .ok c →
      (refreshToken scopes st env).effects =
        (getAuthenticatedClient scopes st env).effects ++
          (refreshViaEndpoint c env.refreshOutcome).effects) := by
  cases har : (getAuthenticatedClient scopes st env).result with
  | error e0 =>
    have hr : refreshToken scopes st env =
        { result := .error e0, state := (getAuthenticatedClient scopes st env).state,
          effects := (getAuthenticatedClient scopes st env).effects } := by
      simp only [refreshToken, hc, har]
    refine ⟨?_, ?_, ?_⟩
    · rw [hr]
      exact isPrefixOf_self _
    · intro e he
      rw [← Except.error.inj he]
      exact hr
    · intro c hok
      exact absurd hok (by simp)
  | ok c0 =>
    have hr : (refreshToken scopes st env).effects =
        (getAuthenticatedClient scopes st env).effects ++
          (refreshViaEndpoint c0 env.refreshOutcome).effects := by
      simp only [refreshToken, hc, har]
      cases hEr : (refreshViaEndpoint c0 env.refreshOutcome).result <;> simp [hEr]
    refine ⟨?_, ?_, ?_⟩
    · rw [hr]
      exact isPrefixOf_append_self _ _
    · intro e he
      exact absurd he (by simp)
    · intro c hok
      rw [← Except.ok.inj hok]
      exact hr

/-- Witness for `c10_refresh_runs_full_auth`. -/
theorem c10_witness :
    (getAuthenticatedClient ["read"] ⟨none, none⟩ wEnvTimeout).effects.isPrefixOf
      (refreshToken ["read"] ⟨none, none⟩ wEnvTimeout).effects = true :=
  (c10_refresh_runs_full_auth ["read"] ⟨none, none⟩ wEnvTimeout rfl).1

theorem webLogin_timeout (st : MgrState) (env : Env) (hrace : env.race = .timeout) :
    webLogin st env =
      { result := .error (timeoutMessage env.authUrl), state := st,
        effects := [.interactiveStart, .urlFileWrite, .browserOpen] } := by
  unfold webLogin
  rw [hrace]

/-- C4: with no in-memory credential and a persisted credential missing
at least one requested scope, `getAuthenticatedClient` clears the store
and starts the interactive flow (the trace begins `storeClear,
interactiveStart, ...`), and any credential it ends up returning is one
resolved by the interactive callback — the under-scoped persisted
credential is never adopted. -/
theorem c4_scope_mismatch_clears_and_reauths (scopes : List String) (st : MgrState)
    (env : Env) (cred : Credentials) (sc : String)
    (hc : st.client = none) (hs : st.stored = some cred)
    (hmem : sc ∈ scopes) (hmiss : (savedScopes cred).contains sc = false) :
    ((getAuthenticatedClient scopes st env).effects.take 4 =
      [.storeClear, .interactiveStart, .urlFileWrite, .browserOpen]) ∧
    (∀ c', (getAuthenticatedClient scopes st env).result = .ok c' →
      ∃ req, env.race = .callback req ∧
        (handleCallback env.decodeCsrf env.csrfToken req).settle = .resolved c') := by
  have hsc : sc ∈ missingScopes scopes cred := by
    unfold missingScopes
    rw [List.mem_filter]
    exact ⟨hmem, by rw [hmiss]; rfl⟩
  have hne : (missingScopes scopes cred).isEmpty = false := by
    cases hmm : missingScopes scopes cred with
    | nil =>
      rw [hmm] at hsc
      cases hsc
    | cons a as => rfl
  have hred : getAuthenticatedClient scopes st env =
      { result := (webLogin { st with stored := none } env).result,
        state := (webLogin { st with stored := none } env).state,
        effects := .storeClear :: (webLogin { st with stored := none } env).effects } := by
    simp only [getAuthenticatedClient, hc, loadCachedOrLogin]
    rw [hs]
    simp [hne]
  rw [hred]
  cases hr : env.race with
  | timeout =>
    rw [webLogin_timeout _ _ hr]
    exact ⟨rfl, fun c' hok => absurd hok (by simp)⟩
  | callback req =>
    cases hset : (handleCallback env.decodeCsrf env.csrfToken req).settle with
    | resolved tokens =>
      have hwl : webLogin { st with stored := none } env =
          { result := .ok tokens, state := ⟨some tokens, some tokens⟩,
            effects := [.interactiveStart, .urlFileWrite, .browserOpen, .storeSave tokens] } := by
        simp only [webLogin, hr, hset]
      rw [hwl]
      refine ⟨rfl, ?_⟩
      intro c' hok
      exact ⟨req, rfl, by rw [hset, Except.ok.inj hok]⟩
    | rejected msg =>
      have hwl : webLogin { st with stored := none } env =
          { result := .error msg, state := { st with stored := none },
            effects := [.interactiveStart, .urlFileWrite, .browserOpen] } := by
        simp only [webLogin, hr, hset]
      rw [hwl]
      exact ⟨rfl, fun c' hok => absurd hok (by simp)⟩

/-- Witness for `c4_scope_mismatch_clears_and_reauths`. -/
theorem c4_witness :
    (getAuthenticatedClient ["read", "write"] ⟨none, some wCred⟩ wEnvTimeout).effects.take 4 =
      [.storeClear, .interactiveStart, .urlFileWrite, .browserOpen] :=
  (c4_scope_mismatch_clears_and_reauths ["read", "write"] ⟨none, some wCred⟩ wEnvTimeout
    wCred "write" rfl rfl (by simp) (by decide)).1

theorem refreshViaEndpoint_no_interactive (cred : Credentials) (out : RefreshOutcome) :
    Effect.interactiveStart ∉ (refreshViaEndpoint cred out).effects := by
  unfold refreshViaEndpoint
  by_cases h : isTruthy cred.refresh_token = true
  · simp only [h, if_true]
    cases out <;> simp
  · have h' : isTruthy cred.refresh_token = false := by simpa using h
    simp [h']

theorem effectsAfterInteractive_append (l₁ l₂ : List Effect)
    (h : Effect.interactiveStart ∉ l₁) :
    effectsAfterInteractive (l₁ ++ l₂) = effectsAfterInteractive l₂ := by
  induction l₁ with
  | nil => rfl
  | cons a as ih =>
    have hrest : Effect.interactiveStart ∉ as := fun hm => h (List.mem_cons_of_mem a hm)
    have ha : a ≠ Effect.interactiveStart := fun hh => h (hh ▸ List.mem_cons_self a as)
    cases a with
    | interactiveStart => exact absurd rfl ha
    | refreshCall => exact ih hrest
    | storeSave c => exact ih hrest
    | storeClear => exact ih hrest
    | urlFileWrite => exact ih hrest
    | browserOpen => exact ih hrest
    | urlFileUnlink => exact ih hrest

theorem loadCachedOrLogin_timeout (scopes : List String) (st : MgrState) (env : Env)
    (hrace : env.race = .timeout)
    (hreach : Effect.interactiveStart ∈ (loadCachedOrLogin scopes st env).effects) :
    (loadCachedOrLogin scopes st env).result = .error (timeoutMessage env.authUrl) ∧
    ((effectsAfterInteractive (loadCachedOrLogin scopes st env).effects).all
      (fun ef => !isStoreWrite ef)) = true := by
  cases hst : st.stored with
  | none =>
    have hred : loadCachedOrLogin scopes st env = webLogin st env := by
      simp only [loadCachedOrLogin, hst]
    rw [hred]
    rw [webLogin_timeout st env hrace]
    exact ⟨rfl, rfl⟩
  | some cred =>
    by_cases hm : (missingScopes scopes cred).isEmpty = true
    · by_cases hexp : isTokenExpiringSoon env.now cred = true
      · cases hEr : (refreshViaEndpoint cred env.refreshOutcome).result with
        | ok merged =>
          have hred : loadCachedOrLogin scopes st env =
              { result := .ok merged, state := ⟨some merged, some merged⟩,
                effects := (refreshViaEndpoint cred env.refreshOutcome).effects } := by
            simp only [loadCachedOrLogin, hst, hm, hexp, hEr, if_true]
          rw [hred] at hreach
          exact absurd hreach (refreshViaEndpoint_no_interactive cred env.refreshOutcome)
        | error e =>
          have hred : loadCachedOrLogin scopes st env =
              { result := (webLogin ⟨none, none⟩ env).result,
                state := (webLogin ⟨none, none⟩ env).state,
                effects := (refreshViaEndpoint cred env.refreshOutcome).effects ++ [.storeClear]
                  ++ (webLogin ⟨none, none⟩ env).effects } := by
            simp only [loadCachedOrLogin, hst, hm, hexp, hEr, if_true]
          have hpre : Effect.interactiveStart ∉
              (refreshViaEndpoint cred env.refreshOutcome).effects ++ [Effect.storeClear] := by
            intro hmem
            rcases List.mem_append.mp hmem with h1 | h2
            · exact refreshViaEndpoint_no_interactive cred env.refreshOutcome h1
            · simp at h2
          rw [hred]
          rw [webLogin_timeout _ env hrace]
          refine ⟨rfl, ?_⟩
          show ((effectsAfterInteractive
            ((refreshViaEndpoint cred env.refreshOutcome).effects ++ [Effect.storeClear]
              ++ [Effect.interactiveStart, Effect.urlFileWrite, Effect.browserOpen])).all
            (fun ef => !isStoreWrite ef)) = true
          rw [effectsAfterInteractive_append _ _ hpre]
          rfl
      · have hexp' : isTokenExpiringSoon env.now cred = false := by simpa using hexp
        have hred : loadCachedOrLogin scopes st env =
            { result := .ok cred, state := { st with client := some cred }, effects := [] } := by
          simp only [loadCachedOrLogin, hst]
          simp [hm, hexp']
        rw [hred] at hreach
        simp at hreach
    · have hm' : (missingScopes scopes cred).isEmpty = false := by simpa using hm
      have hred : loadCachedOrLogin scopes st env =
          { result := (webLogin { st with stored := none } env).result,
            state := (webLogin { st with stored := none } env).state,
            effects := .storeClear :: (webLogin { st with stored := none } env).effects } := by
        simp only [loadCachedOrLogin, hst]
        simp [hm']
      rw [hred]
      rw [webLogin_timeout _ env hrace]
      exact ⟨rfl, rfl⟩

/-- C5: whenever `getAuthenticatedClient` reaches the interactive flow
(its trace contains `interactiveStart`) and the 5-minute timer wins the
race, the call rejects with the timeout error whose message textually
contains the original authorization URL, and after the interactive flow
began no store write or clear ever happens — the persisted record is
left untouched by the timed-out wait. -/
theorem c5_timeout_rejects (scopes : List String) (st : MgrState) (env : Env)
    (hrace : env.race = .timeout)
    (hreach : Effect.interactiveStart ∈ (getAuthenticatedClient scopes st env).effects) :
    (getAuthenticatedClient scopes st env).result = .error (timeoutMessage env.authUrl) ∧
    timeoutMessage env.authUrl =
      "Authentication timed out after 5 minutes. Open this URL in your browser: "
        ++ env.authUrl ∧
    ((effectsAfterInteractive (getAuthenticatedClient scopes st env).effects).all
      (fun ef => !isStoreWrite ef)) = true := by
  cases hcl : st.client with
  | none =>
    have hred : getAuthenticatedClient scopes st env = loadCachedOrLogin scopes st env := by
      simp only [getAuthenticatedClient, hcl]
    rw [hred] at hreach ⊢
    have hll := loadCachedOrLogin_timeout scopes st env hrace hreach
    exact ⟨hll.1, rfl, hll.2⟩
  | some c =>
    by_cases hrt : isTruthy c.refresh_token = true
    · by_cases hexp : isTokenExpiringSoon env.now c = true
      · cases hEr : (refreshViaEndpoint c env.refreshOutcome).result with
        | ok merged =>
          have hred : getAuthenticatedClient scopes st env =
              { result := .ok merged, state := ⟨some merged, some merged⟩,
                effects := (refreshViaEndpoint c env.refreshOutcome).effects } := by
            simp only [getAuthenticatedClient, hcl, hrt, hexp, hEr, if_true]
          rw [hred] at hreach
          exact absurd hreach (refreshViaEndpoint_no_interactive c env.refreshOutcome)
        | error e =>
          have hred : getAuthenticatedClient scopes st env =
              { result := (loadCachedOrLogin scopes ⟨none, none⟩ env).result,
                state := (loadCachedOrLogin scopes ⟨none, none⟩ env).state,
                effects := (refreshViaEndpoint c env.refreshOutcome).effects ++ [.storeClear]
                  ++ (loadCachedOrLogin scopes ⟨none, none⟩ env).effects } := by
            simp only [getAuthenticatedClient, hcl, hrt, hexp, hEr, if_true]
          have hpre : Effect.interactiveStart ∉
              (refreshViaEndpoint c env.refreshOutcome).effects ++ [Effect.storeClear] := by
            intro hmem
            rcases List.mem_append.mp hmem with h1 | h2
            · exact refreshViaEndpoint_no_interactive c env.refreshOutcome h1
            · simp at h2
          rw [hred] at hreach
          have hreach₂ : Effect.interactiveStart ∈
              (loadCachedOrLogin scopes ⟨none, none⟩ env).effects := by
            rcases List.mem_append.mp hreach with h1 | h2
            · exact absurd h1 hpre
            · exact h2
          have hll := loadCachedOrLogin_timeout scopes ⟨none, none⟩ env hrace hreach₂
          refine ⟨?_, rfl, ?_⟩
          · rw [hred]
            exact hll.1
          · rw [hred]
            show ((effectsAfterInteractive
              ((refreshViaEndpoint c env.refreshOutcome).effects ++ [Effect.storeClear]
                ++ (loadCachedOrLogin scopes ⟨none, none⟩ env).effects)).all
              (fun ef => !isStoreWrite ef)) = true
            rw [effectsAfterInteractive_append _ _ hpre]
            exact hll.2
      · have hexp' : isTokenExpiringSoon env.now c = false := by simpa using hexp
        have hred : getAuthenticatedClient scopes st env =
            { result := .ok c, state := st, effects := [] } := by
          simp only [getAuthenticatedClient, hcl]
          simp [hrt, hexp']
        rw [hred] at hreach
        simp at hreach
    · have hrt' : isTruthy c.refresh_token = false := by simpa using hrt
      have hred : getAuthenticatedClient scopes st env = loadCachedOrLogin scopes st env := by
        simp only [getAuthenticatedClient, hcl]
        simp [hrt']
      rw [hred] at hreach ⊢
      have hll := loadCachedOrLogin_timeout scopes st env hrace hreach
      exact ⟨hll.1, rfl, hll.2⟩

/-- Witness for `c5_timeout_rejects`. -/
theorem c5_witness :
    (getAuthenticatedClient ["read"] ⟨none, none⟩ wEnvTimeout).result =
      .error (timeoutMessage wEnvTimeout.authUrl) ∧
    timeoutMessage wEnvTimeout.authUrl =
      "Authentication timed out after 5 minutes. Open this URL in your browser: "
        ++ wEnvTimeout.authUrl ∧
    ((effectsAfterInteractive (getAuthenticatedClient ["read"] ⟨none, none⟩ wEnvTimeout).effects).all
      (fun ef => !isStoreWrite ef)) = true :=
  c5_timeout_rejects ["read"] ⟨none, none⟩ wEnvTimeout rfl (by decide)

end GWMCP
